import Mathlib

/-!
Verification development for the browser API test tool
(`src/utils/testRunner.js` and collaborators).

The JavaScript source is shallowly embedded: pure functions become Lean
functions, JS runtime builtins (`JSON.parse`, `btoa`, `FormData`
availability, `Date#toLocaleString`) are abstracted into an `Env` record,
and the single HTTP attempt performed by `axios` is abstracted into a
`TransportResult` parameter, with the number of transport invocations
tracked explicitly.  String-typed JS fields that the code tests for
truthiness are modelled as `String` with `""` standing for
`undefined`/`null`/empty (the code never distinguishes these via `??` in a
way that matters, see the comments at each use site); fields fed to the
`asNumber` coercion keep a three-valued `JsNum` model because JS coerces
`null` to `0` but `undefined` to `NaN`.
-/

/-- JS `a || b` for strings: `""` (and absent) is falsy. -/
def jsOr (a b : String) : String := if a = "" then b else a

/-- A JS value that the code passes to `Number(...)`: the stored
`expectedStatus` / `maxResponseTime` fields are a finite number, `null`,
or absent. -/
inductive JsNum where
  | undef
  | null
  | num (n : Int)
deriving DecidableEq

/-- `asNumber` from the source: `Number(value)` followed by the
`Number.isFinite` check.  `Number(undefined) = NaN` (not finite, so the
result is `null`), while `Number(null) = 0` (finite, so `0` is kept). -/
def asNumber : JsNum → Option Int
  | .undef => none
  | .null => some 0
  | .num n => some n

/-- The whitespace characters `String.prototype.trim` removes, restricted
to the forms that occur in this tool's data (space, tab, line and page
breaks). -/
def isWsChar (c : Char) : Bool :=
  c == ' ' || c == '\t' || c == '\n' || c == '\r' || c == '\x0b' || c == '\x0c'

/-- JS `value.trim()`: drop leading and trailing whitespace. -/
def jsTrim (s : String) : String :=
  ⟨((s.data.dropWhile isWsChar).reverse.dropWhile isWsChar).reverse⟩

/-- ASCII-range `value.toUpperCase()` (the method strings this tool
uppercases are ASCII). -/
def jsToUpper (s : String) : String :=
  ⟨s.data.map fun c =>
    if 97 ≤ c.toNat ∧ c.toNat ≤ 122 then Char.ofNat (c.toNat - 32) else c⟩

/-- ASCII-range `key.toLowerCase()` (used for the `Content-Type` header
comparison). -/
def jsToLower (s : String) : String :=
  ⟨s.data.map fun c =>
    if 65 ≤ c.toNat ∧ c.toNat ≤ 90 then Char.ofNat (c.toNat + 32) else c⟩

/-- `str.replace(/c/g, rep)` for a single-character pattern, which is the
shape of every replacement the escapers perform. -/
def replaceChar (s : String) (c : Char) (rep : String) : String :=
  ⟨(s.data.map fun x => if x == c then rep.data else [x]).flatten⟩

/-- `ensureTrimmed` from the source, at string type: `value.trim()`.
(The `typeof` guard returns non-strings unchanged; every call site the
claims touch passes a string.) -/
def ensureTrimmed (value : String) : String := jsTrim value

/-- Decimal digit rendering of one digit `0..9`. -/
def decDigit (n : Nat) : Char := Char.ofNat (48 + n % 10)

/-- Fuel-driven decimal rendering loop (most significant digit first). -/
def natDecGo : Nat → Nat → List Char → List Char
  | 0, _, acc => acc
  | fuel + 1, n, acc =>
    let acc' := decDigit (n % 10) :: acc
    if n / 10 = 0 then acc' else natDecGo fuel (n / 10) acc'

/-- Decimal rendering of a natural number, modelling how a JS template
literal renders an integer-valued number. -/
def natDec (n : Nat) : String := ⟨natDecGo (n + 1) n []⟩

/-- Decimal rendering of an integer-valued JS number. -/
def intDec : Int → String
  | .ofNat n => natDec n
  | .negSucc n => "-" ++ natDec (n + 1)

/-- Two-digit zero-padded rendering, as produced by `toFixed(2)` for the
fractional part. -/
def pad2 (n : Nat) : String := if n < 10 then "0" ++ natDec n else natDec n

/-- Three-digit zero-padded rendering of a millisecond remainder. -/
def pad3 (n : Nat) : String :=
  if n < 10 then "00" ++ natDec n else if n < 100 then "0" ++ natDec n else natDec n

/-- `(ms / 1000).toFixed(0)` for an integer millisecond count: the spec of
`Number.prototype.toFixed` rounds to the nearest integer, ties up. -/
def toFixed0ms (ms : Nat) : String := natDec ((ms + 500) / 1000)

/-- `(ms / 1000).toFixed(2)` for an integer millisecond count: nearest
hundredth of a second, ties up, fractional part zero-padded to width 2. -/
def toFixed2ms (ms : Nat) : String :=
  let cent := (ms + 5) / 10
  natDec (cent / 100) ++ "." ++ pad2 (cent % 100)

/-- `formatDuration` from the source.  `none` models a non-finite input
(the `Number.isFinite` guard); millisecond counts coming from
`Date.now()` differences are non-negative integers, hence `Nat`. -/
def formatDuration : Option Nat → String
  | none => "-"
  | some ms =>
    if 1000 ≤ ms then
      (if 10000 ≤ ms then toFixed0ms ms else toFixed2ms ms) ++ " s"
    else
      natDec ms ++ " ms"

/-- The five-character XML replacement chain from `escapeXml`, in source
order (`&` first, so earlier replacements are not re-escaped). -/
def xmlEscapeChars (s : String) : String :=
  replaceChar
    (replaceChar
      (replaceChar (replaceChar (replaceChar s '&' "&amp;") '<' "&lt;")
        '>' "&gt;")
      '"' "&quot;")
    (Char.ofNat 39) "&apos;"

/-- `escapeXml` from the source: trim (via `ensureTrimmed`), then replace
the five reserved characters. -/
def escapeXml (value : String) : String := xmlEscapeChars (ensureTrimmed value)

/-- The five-character HTML replacement chain from `escapeHtml`. -/
def htmlEscapeChars (s : String) : String :=
  replaceChar
    (replaceChar
      (replaceChar (replaceChar (replaceChar s '&' "&amp;") '<' "&lt;")
        '>' "&gt;")
      '"' "&quot;")
    (Char.ofNat 39) "&#39;"

/-- `escapeHtml` from the source: trim, then replace the five reserved
characters. -/
def escapeHtml (value : String) : String := htmlEscapeChars (ensureTrimmed value)

/-- Characters `encodeURIComponent` leaves unencoded. -/
def isUnreservedURI (c : Char) : Bool :=
  (decide (65 ≤ c.toNat) && decide (c.toNat ≤ 90)) ||
  (decide (97 ≤ c.toNat) && decide (c.toNat ≤ 122)) ||
  (decide (48 ≤ c.toNat) && decide (c.toNat ≤ 57)) ||
  c == '-' || c == '_' || c == '.' || c == '!' || c == '~' || c == '*' ||
  c == Char.ofNat 39 || c == '(' || c == ')'

/-- UTF-8 bytes of a Unicode scalar value. -/
def utf8Bytes (c : Char) : List Nat :=
  let n := c.toNat
  if n < 128 then [n]
  else if n < 2048 then [192 + n / 64, 128 + n % 64]
  else if n < 65536 then [224 + n / 4096, 128 + n / 64 % 64, 128 + n % 64]
  else [240 + n / 262144, 128 + n / 4096 % 64, 128 + n / 64 % 64, 128 + n % 64]

/-- Uppercase hexadecimal digit. -/
def hexDigitUpper (n : Nat) : Char :=
  if n < 10 then Char.ofNat (48 + n) else Char.ofNat (55 + n)

/-- The JS builtin `encodeURIComponent`: unreserved characters pass
through, everything else is percent-encoded byte by byte (uppercase hex). -/
def encodeURIComponent (s : String) : String :=
  String.join (s.data.map fun c =>
    if isUnreservedURI c then String.singleton c
    else String.join ((utf8Bytes c).map fun b =>
      "%" ++ String.singleton (hexDigitUpper (b / 16)) ++
        String.singleton (hexDigitUpper (b % 16))))

/-- Substring occurrence test (used only to state theorems about generated
reports). -/
def infixAt (pat : List Char) : List Char → Bool
  | [] => pat.isEmpty
  | c :: cs => pat.isPrefixOf (c :: cs) || infixAt pat cs

/-- `strContains hay pat` holds when `pat` occurs contiguously in `hay`. -/
def strContains (hay pat : String) : Bool := infixAt pat.data hay.data

/-- JS object property assignment on a string-keyed object rendered as an
insertion-ordered association list: an existing key keeps its position and
gets the new value, a new key is appended. -/
def jsObjSet (entries : List (String × String)) (k v : String) :
    List (String × String) :=
  if entries.any (fun p => p.1 == k) then
    entries.map (fun p => if p.1 == k then (p.1, v) else p)
  else
    entries ++ [(k, v)]

/-- The `auth` sub-record of a Test Case.  `""` models an absent field:
the code only ever tests these for truthiness or trims them. -/
structure AuthConfig where
  token : String := ""
  username : String := ""
  password : String := ""
  apiKey : String := ""
  apiKeyLocation : String := ""
  apiKeyName : String := ""
deriving DecidableEq

/-- A saved Test Case record (the shape produced by the request form). -/
structure TestCase where
  id : String := ""
  caseName : String := ""
  method : String := ""
  url : String := ""
  headers : List (String × String) := []
  authType : String := ""
  auth : AuthConfig := {}
  bodyType : String := ""
  rawBody : String := ""
  formData : List (String × String) := []
  expectedStatus : JsNum := .undef
  maxResponseTime : JsNum := .undef
deriving DecidableEq

/-- A JSON value, the result type of the `JSON.parse` oracle.  The
builders never inspect parsed values, so the constructors only serve to
build concrete witnesses. -/
inductive JsonVal where
  | null
  | bool (b : Bool)
  | num (n : Int)
  | str (s : String)
  | arr (elems : List JsonVal)
  | obj (members : List (String × JsonVal))

/-- The request body attached to an outgoing call: a parsed JSON value, a
literal text body, a `FormData` multipart body, or the plain-object
fallback used when `FormData` is unavailable. -/
inductive BodyData where
  | json (v : JsonVal)
  | text (s : String)
  | form (entries : List (String × String))
  | obj (entries : List (String × String))

/-- Result record of `buildBody`; `warning = ""` models a `null` warning. -/
structure BodyResult where
  data : Option BodyData
  isFormData : Bool
  warning : String

/-- One sextet of the base64 alphabet. -/
def base64Char (n : Nat) : Char :=
  if n < 26 then Char.ofNat (65 + n)
  else if n < 52 then Char.ofNat (97 + (n - 26))
  else if n < 62 then Char.ofNat (48 + (n - 52))
  else if n = 62 then '+' else '/'

/-- Base64 encoding of a byte list, with `=` padding. -/
def base64Go : List Nat → List Char
  | [] => []
  | [b1] => [base64Char (b1 / 4), base64Char (b1 % 4 * 16), '=', '=']
  | [b1, b2] =>
    [base64Char (b1 / 4), base64Char (b1 % 4 * 16 + b2 / 16),
      base64Char (b2 % 16 * 4), '=']
  | b1 :: b2 :: b3 :: rest =>
    base64Char (b1 / 4) :: base64Char (b1 % 4 * 16 + b2 / 16) ::
      base64Char (b2 % 16 * 4 + b3 / 64) :: base64Char (b3 % 64) ::
      base64Go rest

/-- The JS builtin `btoa`: base64 of the string read as Latin-1 bytes.
It throws an `InvalidCharacterError` as soon as any character is above
U+00FF (the thrown message text is engine specific; the model uses the
DOMException name). -/
def btoa (s : String) : Except String String :=
  if s.data.all (fun c => decide (c.toNat ≤ 255)) then
    .ok ⟨base64Go (s.data.map (fun c => c.toNat))⟩
  else
    .error "InvalidCharacterError"

/-- The JS runtime builtins the pipeline calls whose behaviour is not
pinned down by their input alone, abstracted as total functions:
`JSON.parse` (throwing modelled as `none`), the `FormData` availability
probe, and `Date#toLocaleString`. -/
structure Env where
  jsonParse : String → Option JsonVal
  hasFormData : Bool
  toLocaleString : String → String

/-- What the single `axios` invocation does: resolve with a status and
status text (all statuses resolve, because `validateStatus` always

returns true), or reject with an error message and an optional partial
response. -/
inductive TransportResult where
  | success (status : Int) (statusText : String)
  | failure (message : String) (partialStatus : Option Int)
      (partialStatusText : Option String)
deriving DecidableEq

/-- An execution Outcome.  `warning`/`error` use `""` for `null`. -/
structure Outcome where
  caseId : String
  caseName : String
  ok : Bool
  status : Option Int
  statusText : Option String
  timeMs : Nat
  expectedStatus : Option Int
  warning : String
  executedAt : String
  error : String
deriving DecidableEq

/-- The `requestConfig` object handed to the transport. -/
structure RequestConfig where
  method : String
  url : String
  headers : List (String × String)
  validateStatusAll : Bool
  timeout : Option Int
  data : Option BodyData

/-- Observable result of one `runTestCase` call: the returned Outcome (or
the thrown error message), the request configuration that reached the
transport, and how many transport invocations were made. -/
structure RunResult where
  outcome : Except String Outcome
  request : Option RequestConfig
  transportCalls : Nat

/-- `buildHeaders` from the source: collect the Test Case's header list
(empty keys skipped, later duplicates overwrite), apply the three
authorization schemes, then strip any `Content-Type` header (case
insensitively) when the body is form-encoded.  The Basic branch calls
`btoa`, whose `InvalidCharacterError` propagates out of `buildHeaders`
(the source has no try around it), hence the `Except` result. -/
def buildHeaders (tc : TestCase) (isFormData : Bool) :
    Except String (List (String × String)) :=
  let base := tc.headers.foldl
    (fun acc p => if p.1 = "" then acc else jsObjSet acc p.1 p.2) []
  let withBearer :=
    if tc.authType = "Bearer" ∧ tc.auth.token ≠ "" then
      jsObjSet base "Authorization" ("Bearer " ++ tc.auth.token)
    else base
  let basicStep : Except String (List (String × String)) :=
    if tc.authType = "Basic" ∧ tc.auth.username ≠ "" ∧ tc.auth.password ≠ "" then
      match btoa (tc.auth.username ++ ":" ++ tc.auth.password) with
      | .ok b => .ok (jsObjSet withBearer "Authorization" ("Basic " ++ b))
      | .error e => .error e
    else .ok withBearer
  match basicStep with
  | .error e => .error e
  | .ok withBasic =>
    let withApiKey :=
      if tc.authType = "ApiKey" ∧ tc.auth.apiKey ≠ "" ∧
          tc.auth.apiKeyLocation = "header" then
        jsObjSet withBasic (jsOr (jsTrim tc.auth.apiKeyName) "x-api-key")
          tc.auth.apiKey
      else withBasic
    .ok
      (if isFormData then
        withApiKey.filter (fun p => (jsToLower p.1) != "content-type")
      else withApiKey)

/-- `buildBody` from the source.  On the JSON-parse-failure branch the
source sends `testCase.rawBody ?? raw`; `rawBody` is a string in our
model, so that is `tc.rawBody` (the untrimmed literal text). -/
def buildBody (env : Env) (tc : TestCase) : BodyResult :=
  let method := jsToUpper (jsOr tc.method "GET")
  if method = "GET" then ⟨none, false, ""⟩
  else if tc.bodyType = "raw" then
    let raw := ensureTrimmed tc.rawBody
    if raw = "" then ⟨none, false, ""⟩
    else
      match env.jsonParse raw with
      | some v => ⟨some (.json v), false, ""⟩
      | none =>
        ⟨some (.text tc.rawBody), false,
          "Raw body is not valid JSON; sending as text."⟩
  else if tc.bodyType = "form-data" then
    let entries := tc.formData.filter (fun p => p.1 != "")
    if entries.isEmpty then ⟨none, false, ""⟩
    else if env.hasFormData then ⟨some (.form entries), true, ""⟩
    else
      ⟨some (.obj (entries.foldl (fun acc p => jsObjSet acc p.1 p.2) [])),
        false, ""⟩
  else ⟨none, false, ""⟩

/-- The final-URL computation from `runTestCase` (lines 128 and 133-139 of
the source): trim the URL, and when the query-string API-key scheme is
active append `encoded(name)=encoded(value)` with `?` or `&`. -/
def finalUrlOf (tc : TestCase) : String :=
  let u := ensureTrimmed (jsOr tc.url "")
  if tc.authType = "ApiKey" ∧ tc.auth.apiKey ≠ "" ∧
      tc.auth.apiKeyLocation = "query" then
    let paramName := jsOr (jsTrim tc.auth.apiKeyName) "apiKey"
    let param :=
      encodeURIComponent paramName ++ "=" ++ encodeURIComponent tc.auth.apiKey
    u ++ (if u.data.contains '?' then "&" else "?") ++ param
  else u

/-- `runTestCase` from the source.  `transport` is the behaviour of the
single `axios` call, `elapsedMs` the measured `Date.now()` difference, and
`now` the completion timestamp `new Date().toISOString()`.  `buildHeaders`
runs outside the try block, so a `btoa` InvalidCharacterError thrown there
propagates to the caller with no transport attempt made. -/
def runTestCase (env : Env) (transport : TransportResult) (elapsedMs : Nat)
    (now : String) (tc : TestCase) : RunResult :=
  let urlTrimmed := ensureTrimmed (jsOr tc.url "")
  if urlTrimmed = "" then
    { outcome := .error "Missing URL for test case.", request := none,
      transportCalls := 0 }
  else
    let method := jsToUpper (jsOr tc.method "GET")
    let body := buildBody env tc
    match buildHeaders tc body.isFormData with
    | .error e =>
      { outcome := .error e, request := none, transportCalls := 0 }
    | .ok headers =>
    let timeoutSeconds := asNumber tc.maxResponseTime
    let timeout : Option Int :=
      match timeoutSeconds with
      | some t => if 0 < t then some (t * 1000) else none
      | none => none
    let config : RequestConfig :=
      { method := method, url := finalUrlOf tc, headers := headers,
        validateStatusAll := true, timeout := timeout, data := body.data }
    match transport with
    | .success status statusText =>
      let expected := asNumber tc.expectedStatus
      let ok :=
        match expected with
        | some e => status == e
        | none => decide (200 ≤ status) && decide (status < 300)
      { outcome := .ok
          { caseId := tc.id, caseName := tc.caseName, ok := ok,
            status := some status, statusText := some statusText,
            timeMs := elapsedMs, expectedStatus := expected,
            warning := body.warning, executedAt := now, error := "" },
        request := some config, transportCalls := 1 }
    | .failure message pStatus pText =>
      { outcome := .ok
          { caseId := tc.id, caseName := tc.caseName, ok := false,
            status := pStatus, statusText := pText, timeMs := elapsedMs,
            expectedStatus := asNumber tc.expectedStatus,
            warning := body.warning, executedAt := now, error := message },
        request := some config, transportCalls := 1 }

/-- `Array.prototype.join(sep)`: the elements interleaved with the
separator. -/
def joinSep (sep : String) : List String → String
  | [] => ""
  | [x] => x
  | x :: rest => x ++ sep ++ joinSep sep rest

/-- `Object.fromEntries(testCases.map(tc => [tc.id, tc]))[cid]`: with
duplicate ids the later entry wins, so look from the right. -/
def lookupCase (tcs : List TestCase) (cid : String) : Option TestCase :=
  tcs.reverse.find? (fun t => t.id == cid)

/-- Rendering of `timeMs / 1000` as a JS number in a template literal:
the exact decimal value with trailing fractional zeros dropped (for the
integer millisecond counts the runner produces, the double `timeMs / 1000`
prints as this exact decimal). -/
def renderTimeSeconds (timeMs : Nat) : String :=
  let ip := timeMs / 1000
  let frac := timeMs % 1000
  if frac = 0 then natDec ip
  else natDec ip ++ "." ++ (⟨((pad3 frac).data.reverse.dropWhile (fun c => c == '0')).reverse⟩ : String)

/-- One `<testcase>` entry of the JUnit report (the `results.map` closure
in `generateJUnitReport`). -/
def junitEntry (tcs : List TestCase) (r : Outcome) : String :=
  let target := lookupCase tcs r.caseId
  let tMethod := (target.map (fun t => t.method)).getD ""
  let tUrl := (target.map (fun t => t.url)).getD ""
  let tName := (target.map (fun t => t.caseName)).getD ""
  let fallbackName := jsTrim (jsOr tMethod (jsOr r.caseName "") ++ " " ++ jsOr tUrl "")
  let name := jsOr tName (jsOr r.caseName (jsOr fallbackName "Unnamed Case"))
  let failureBlock :=
    if r.ok then ""
    else
      "<failure message=\"Expected " ++
        (match r.expectedStatus with | some e => intDec e | none => "2xx") ++
        ", got " ++
        (match r.status with | some s => intDec s | none => "error") ++
        "\">" ++ jsOr r.error "Request failed" ++ "</failure>"
  "    <testcase classname=\"API\" name=\"" ++ escapeXml name ++
    "\" time=\"" ++ renderTimeSeconds r.timeMs ++ "\">\n" ++
    (if failureBlock ≠ "" then "      " ++ failureBlock ++ "\n" else "") ++
    "    </testcase>"

/-- `generateJUnitReport` from the source. -/
def generateJUnitReport (testCases : List TestCase) (results : List Outcome) :
    String :=
  let total := testCases.length
  let failures := (results.filter (fun r => !r.ok)).length
  let testCaseEntries :=
    joinSep "\n" (results.map (junitEntry testCases))
  "<?xml version=\"1.0\" encoding=\"UTF-8\"?>\n<testsuite name=\"API Tests\" tests=\"" ++
    natDec total ++ "\" failures=\"" ++ natDec failures ++ "\">\n" ++
    testCaseEntries ++ "\n</testsuite>"

/-- `formatDateTime` from the source: falsy input renders as `-`,
otherwise `new Date(iso).toLocaleString()` (an environment capability; the
`catch` arm is unreachable because `toLocaleString` does not throw). -/
def formatDateTime (env : Env) (iso : String) : String :=
  if iso = "" then "-" else env.toLocaleString iso

/-- The `meta` argument of `generateAllureHtml`; only `executedAt` is
read, with `""` modelling an absent field. -/
structure AllureMeta where
  executedAt : String := ""
deriving DecidableEq

/-- The four filter buttons (key, label). -/
def filterButtonsOf (total passed failed warnings : Nat) :
    List (String × String) :=
  [("all", "All (" ++ natDec total ++ ")"),
   ("passed", "Passed (" ++ natDec passed ++ ")"),
   ("failed", "Failed (" ++ natDec failed ++ ")"),
   ("warning", "Warnings (" ++ natDec warnings ++ ")")]

/-- The `filterControls` string (the `filterButtons.map(...).join("")`
expression of the source, whitespace included). -/
def filterControlsOf (buttons : List (String × String)) : String :=
  String.join (buttons.enum.map fun p =>
    "\n        <button class=\"filter" ++ (if p.1 = 0 then " is-active" else "") ++
      "\" data-filter=\"" ++ p.2.1 ++ "\">\n          " ++ escapeHtml p.2.2 ++
      "\n        </button>\n      ")

/-- One case card of the HTML preview (the `results.map` closure in
`generateAllureHtml`); `idx` is the position of the outcome in the
results list.  `escapeHtml` applied by the source to a number renders it
unchanged, so numeric interpolations go through `intDec` first. -/
def caseCard (env : Env) (tcs : List TestCase) (idx : Nat) (r : Outcome) :
    String :=
  let target := lookupCase tcs r.caseId
  let method := jsOr ((target.map (fun t => t.method)).getD "") "GET"
  let url := jsOr ((target.map (fun t => t.url)).getD "") ""
  let fallbackName := jsTrim (method ++ " " ++ url)
  let name := jsOr ((target.map (fun t => t.caseName)).getD "")
    (jsOr r.caseName (jsOr fallbackName ("Case #" ++ natDec (idx + 1))))
  let statusClass := if r.ok then "case--passed" else "case--failed"
  let statusLabel := if r.ok then "Passed" else "Failed"
  let expected := match r.expectedStatus with | some e => intDec e | none => "‚Äî"
  let actual := match r.status with | some s => intDec s | none => "‚Äî"
  let executed := formatDateTime env r.executedAt
  let warningBlock :=
    if r.warning ≠ "" then
      "<div class=\"case__alert case__alert--warning\">‚ö†Ô∏è " ++
        escapeHtml r.warning ++ "</div>"
    else ""
  let errorBlock :=
    if r.error ≠ "" then
      "<div class=\"case__alert case__alert--error\">üî• " ++
        escapeHtml r.error ++ "</div>"
    else ""
  "\n      <article class=\"case " ++ statusClass ++ "\" data-status=\"" ++
    (if r.ok then "passed" else "failed") ++ "\" data-warning=\"" ++
    (if r.warning ≠ "" then "true" else "false") ++
    "\">\n        <header class=\"case__header\">\n          <span class=\"case__status\">" ++
    statusLabel ++ "</span>\n          <h2 class=\"case__name\">" ++
    escapeHtml name ++
    "</h2>\n        </header>\n        <div class=\"case__meta\">\n          <span>" ++
    escapeHtml method ++ "</span>\n          <span>Expected " ++
    escapeHtml expected ++ "</span>\n          <span>Actual " ++
    escapeHtml actual ++ "</span>\n          <span>" ++
    escapeHtml (formatDuration (some r.timeMs)) ++
    "</span>\n        </div>\n        <div class=\"case__url\">" ++
    escapeHtml url ++
    "</div>\n        <div class=\"case__timeline\">Ran at " ++
    escapeHtml executed ++ "</div>\n        " ++ warningBlock ++
    "\n        " ++ errorBlock ++ "\n      </article>\n    "

/-- The static document head of the HTML preview, up to the point where
the generation timestamp is interpolated (source lines 364-415). -/
def allureHtmlHead : String :=
  "<!DOCTYPE html>\n  <html lang=\"en\">\n    <head>\n      <meta charset=\"UTF-8\" />\n      <title>Allure Report Preview</title>\n      <meta name=\"viewport\" content=\"width=device-width, initial-scale=1\" />\n      <style>\n" ++
  "        body \x7b font-family: \x27Inter\x27, \x27Segoe UI\x27, system-ui, -apple-system, sans-serif; margin: 0; background: linear-gradient(135deg, #0f172a 0%, #111827 100%); color: #e2e8f0; \x7d\n" ++
  "        .shell \x7b max-width: 1100px; margin: 0 auto; padding: 3rem 1.5rem 4rem; \x7d\n" ++
  "        .header \x7b margin-bottom: 2.5rem; \x7d\n" ++
  "        .header h1 \x7b margin: 0 0 0.5rem; font-size: clamp(1.8rem, 2vw + 1.2rem, 2.8rem); letter-spacing: 0.05em; text-transform: uppercase; color: #38bdf8; \x7d\n" ++
  "        .header p \x7b margin: 0; font-size: 0.95rem; color: rgba(226, 232, 240, 0.75); \x7d\n" ++
  "        .summary \x7b display: grid; gap: 1rem; grid-template-columns: repeat(auto-fit, minmax(160px, 1fr)); margin-bottom: 2rem; \x7d\n" ++
  "        .card \x7b background: rgba(15, 23, 42, 0.8); border: 1px solid rgba(56, 189, 248, 0.25); border-radius: 16px; padding: 1.25rem; box-shadow: 0 20px 50px rgba(15, 23, 42, 0.45); \x7d\n" ++
  "        .card h3 \x7b margin: 0 0 0.4rem; font-size: 0.85rem; letter-spacing: 0.08em; text-transform: uppercase; color: rgba(148, 163, 184, 0.9); \x7d\n" ++
  "        .card span \x7b font-size: 1.9rem; font-weight: 700; \x7d\n" ++
  "        .card--pass span \x7b color: #4ade80; \x7d\n" ++
  "        .card--fail span \x7b color: #f87171; \x7d\n" ++
  "        .card--warn span \x7b color: #facc15; \x7d\n" ++
  "        .filters \x7b display: flex; flex-wrap: wrap; gap: 0.75rem; margin-bottom: 2rem; \x7d\n" ++
  "        .filter \x7b border: 1px solid rgba(148, 163, 184, 0.4); background: rgba(15, 23, 42, 0.7); color: #f1f5f9; border-radius: 999px; padding: 0.5rem 1rem; cursor: pointer; font-weight: 600; letter-spacing: 0.04em; text-transform: uppercase; transition: all 0.18s ease; \x7d\n" ++
  "        .filter:hover \x7b border-color: rgba(56, 189, 248, 0.8); color: #38bdf8; \x7d\n" ++
  "        .filter.is-active \x7b background: #38bdf8; color: #0f172a; box-shadow: 0 12px 30px rgba(56, 189, 248, 0.35); \x7d\n" ++
  "        .cases \x7b display: grid; gap: 1.25rem; \x7d\n" ++
  "        .case \x7b background: rgba(15, 23, 42, 0.85); border-radius: 18px; padding: 1.5rem; border: 1px solid transparent; box-shadow: 0 25px 40px rgba(15, 23, 42, 0.45); transition: transform 0.18s ease, border-color 0.18s ease; \x7d\n" ++
  "        .case:hover \x7b transform: translateY(-4px); border-color: rgba(56, 189, 248, 0.5); \x7d\n" ++
  "        .case--passed \x7b border-color: rgba(74, 222, 128, 0.35); \x7d\n" ++
  "        .case--failed \x7b border-color: rgba(248, 113, 113, 0.4); \x7d\n" ++
  "        .case__header \x7b display: flex; flex-wrap: wrap; align-items: center; gap: 0.75rem; margin-bottom: 0.6rem; \x7d\n" ++
  "        .case__status \x7b padding: 0.25rem 0.75rem; border-radius: 999px; font-size: 0.75rem; letter-spacing: 0.08em; text-transform: uppercase; background: rgba(56, 189, 248, 0.18); color: #38bdf8; \x7d\n" ++
  "        .case--passed .case__status \x7b background: rgba(74, 222, 128, 0.2); color: #4ade80; \x7d\n" ++
  "        .case--failed .case__status \x7b background: rgba(248, 113, 113, 0.2); color: #f87171; \x7d\n" ++
  "        .case__name \x7b margin: 0; font-size: 1.25rem; color: #f8fafc; \x7d\n" ++
  "        .case__meta \x7b display: flex; flex-wrap: wrap; gap: 0.75rem; font-size: 0.8rem; color: rgba(148, 163, 184, 0.85); margin-bottom: 0.8rem; \x7d\n" ++
  "        .case__url \x7b font-family: \"SFMono-Regular\", Consolas, \"Liberation Mono\", Menlo, monospace; font-size: 0.85rem; color: #38bdf8; margin-bottom: 0.75rem; word-break: break-all; \x7d\n" ++
  "        .case__timeline \x7b font-size: 0.78rem; color: rgba(226, 232, 240, 0.65); margin-bottom: 0.65rem; \x7d\n" ++
  "        .case__alert \x7b padding: 0.6rem 0.8rem; border-radius: 12px; font-size: 0.82rem; margin-top: 0.5rem; \x7d\n" ++
  "        .case__alert--warning \x7b background: rgba(251, 191, 36, 0.18); color: #facc15; border: 1px solid rgba(251, 191, 36, 0.3); \x7d\n" ++
  "        .case__alert--error \x7b background: rgba(248, 113, 113, 0.2); color: #f87171; border: 1px solid rgba(248, 113, 113, 0.35); \x7d\n" ++
  "        .empty \x7b border: 1px dashed rgba(148, 163, 184, 0.4); border-radius: 16px; padding: 2.5rem 1.5rem; text-align: center; color: rgba(226, 232, 240, 0.65); \x7d\n" ++
  "        footer \x7b margin-top: 3rem; font-size: 0.75rem; color: rgba(148, 163, 184, 0.55); text-align: center; \x7d\n" ++
  "        @media (max-width: 720px) \x7b\n          .shell \x7b padding: 2.5rem 1.1rem 3rem; \x7d\n          .cases \x7b gap: 1rem; \x7d\n        \x7d\n" ++
  "      </style>\n    </head>\n    <body>\n      <div class=\"shell\">\n        <header class=\"header\">\n          <h1>Allure Report Preview</h1>\n          <p>Generated "

/-- The static client-side filter script of the HTML preview (source
lines 445-465). -/
def allureHtmlScript : String :=
  "      <script>\n        (function() \x7b\n" ++
  "          const buttons = Array.from(document.querySelectorAll(\x27.filter\x27));\n" ++
  "          const cards = Array.from(document.querySelectorAll(\x27.case\x27));\n" ++
  "          const applyFilter = key => \x7b\n" ++
  "            buttons.forEach(btn => btn.classList.toggle(\x27is-active\x27, btn.dataset.filter === key));\n" ++
  "            cards.forEach(card => \x7b\n" ++
  "              if (!card) return;\n" ++
  "              const status = card.dataset.status;\n" ++
  "              const warning = card.dataset.warning === \x27true\x27;\n" ++
  "              let show = true;\n" ++
  "              if (key === \x27passed\x27) show = status === \x27passed\x27;\n" ++
  "              if (key === \x27failed\x27) show = status === \x27failed\x27;\n" ++
  "              if (key === \x27warning\x27) show = warning;\n" ++
  "              card.style.display = show ? \x27\x27 : \x27none\x27;\n" ++
  "            \x7d);\n          \x7d;\n" ++
  "          buttons.forEach(btn => btn.addEventListener(\x27click\x27, () => applyFilter(btn.dataset.filter)));\n" ++
  "          applyFilter(\x27all\x27);\n        \x7d)();\n      </script>"

/-- `generateAllureHtml` from the source.  `now` models
`new Date().toISOString()`, used only when `meta.executedAt` is absent. -/
def generateAllureHtml (env : Env) (now : String) (testCases : List TestCase)
    (results : List Outcome) (meta : AllureMeta) : String :=
  let total := results.length
  let passed := (results.filter (fun r => r.ok)).length
  let failed := total - passed
  let warnings := (results.filter (fun r => r.warning != "")).length
  let totalDuration := results.foldl (fun acc res => acc + res.timeMs) 0
  let executedAt := jsOr meta.executedAt now
  let executedDisplay := formatDateTime env executedAt
  let filterControls :=
    filterControlsOf (filterButtonsOf total passed failed warnings)
  let caseCards :=
    String.join (results.enum.map fun p => caseCard env testCases p.1 p.2)
  let casesSection :=
    jsOr caseCards "<div class=\"empty\">No test cases were executed.</div>"
  allureHtmlHead ++ escapeHtml executedDisplay ++ " ¬∑ Total duration " ++
    escapeHtml (formatDuration (some totalDuration)) ++
    "</p>\n        </header>\n        <section class=\"summary\">\n          <div class=\"card\">\n            <h3>Total</h3>\n            <span>" ++
    escapeHtml (natDec total) ++
    "</span>\n          </div>\n          <div class=\"card card--pass\">\n            <h3>Passed</h3>\n            <span>" ++
    escapeHtml (natDec passed) ++
    "</span>\n          </div>\n          <div class=\"card card--fail\">\n            <h3>Failed</h3>\n            <span>" ++
    escapeHtml (natDec failed) ++
    "</span>\n          </div>\n          <div class=\"card card--warn\">\n            <h3>Warnings</h3>\n            <span>" ++
    escapeHtml (natDec warnings) ++
    "</span>\n          </div>\n        </section>\n        <div class=\"filters\">\n          " ++
    filterControls ++
    "\n        </div>\n        <section class=\"cases\">\n          " ++
    casesSection ++
    "\n        </section>\n        <footer>\n          Preview generated in the browser. Exported Allure results are available in the downloaded ZIP.\n        </footer>\n      </div>\n" ++
    allureHtmlScript ++ "\n    </body>\n  </html>"

/-- The pass criterion C1 states, read off an Outcome's own fields:
expected status set and matched, or unset and the observed status in
`[200, 300)`. -/
def okCriterion (o : Outcome) : Bool :=
  match o.expectedStatus, o.status with
  | some e, some s => s == e
  | some _, none => false
  | none, some s => decide (200 ≤ s) && decide (s < 300)
  | none, none => false

/-- Whether a `runTestCase` call returned an Outcome (rather than
throwing). -/
def isOkOutcome : Except String Outcome → Bool
  | .ok _ => true
  | .error _ => false

/-- All characters of the string are decimal digits. -/
def allDigits (s : String) : Bool :=
  s.data.all (fun c => decide (48 ≤ c.toNat) && decide (c.toNat ≤ 57))

/-- Everything a failing JUnit `<testcase>` entry emits before the raw
error message: header, escaped name, time attribute and the opening
`<failure ...>` tag (used to exhibit where the error message lands). -/
def junitEntryFailurePrefix (tcs : List TestCase) (r : Outcome) : String :=
  let target := lookupCase tcs r.caseId
  let tMethod := (target.map (fun t => t.method)).getD ""
  let tUrl := (target.map (fun t => t.url)).getD ""
  let tName := (target.map (fun t => t.caseName)).getD ""
  let fallbackName := jsTrim (jsOr tMethod (jsOr r.caseName "") ++ " " ++ jsOr tUrl "")
  let name := jsOr tName (jsOr r.caseName (jsOr fallbackName "Unnamed Case"))
  "    <testcase classname=\"API\" name=\"" ++ escapeXml name ++
    "\" time=\"" ++ renderTimeSeconds r.timeMs ++ "\">\n      " ++
    "<failure message=\"Expected " ++
    (match r.expectedStatus with | some e => intDec e | none => "2xx") ++
    ", got " ++
    (match r.status with | some s => intDec s | none => "error") ++ "\">"

/-- An environment whose `JSON.parse` oracle rejects everything (the
other capabilities are identities). -/
def demoEnv : Env := ⟨fun _ => none, true, id⟩

/-- An environment whose `JSON.parse` oracle accepts exactly the text
`1`, parsed as the number one. -/
def demoEnvParse1 : Env :=
  ⟨fun s => if s = "1" then some (.num 1) else none, true, id⟩

/-- C1 counterexample input: a GET case with no expected status. -/
def tcC1cx : TestCase := { id := "c1", caseName := "net", url := "https://api.example.com/x" }

/-- The Outcome `runTestCase` produces for `tcC1cx` when the transport
fails with a partial 200 response after 7 ms. -/
def oC1cx : Outcome :=
  { caseId := "c1", caseName := "net", ok := false, status := some 200,
    statusText := some "OK", timeMs := 7, expectedStatus := none,
    warning := "", executedAt := "2024-01-01T00:00:00.000Z",
    error := "network error" }

/-- C1 witness input: a case expecting status 200. -/
def tcC1w : TestCase :=
  { id := "w1", caseName := "ping", url := "https://a.example/",
    expectedStatus := .num 200 }

/-- The Outcome `runTestCase` produces for `tcC1w` on a 200 response. -/
def oC1w : Outcome :=
  { caseId := "w1", caseName := "ping", ok := true, status := some 200,
    statusText := some "OK", timeMs := 5, expectedStatus := some 200,
    warning := "", executedAt := "t", error := "" }

/-- C2 failing input: a failed outcome whose transport error message
contains reserved XML characters. -/
def oC2bug : Outcome :=
  { caseId := "1", caseName := "c", ok := false, status := none,
    statusText := none, timeMs := 0, expectedStatus := none, warning := "",
    executedAt := "t", error := "<b>&" }

/-- C4 witness input: a lower-case GET case carrying raw body text. -/
def tcC4w : TestCase :=
  { method := "get", url := "https://g.example/", bodyType := "raw",
    rawBody := "\x7b\"k\": 1\x7d" }

/-- C5 witness input: a POST case whose raw body is the JSON text `1`
surrounded by whitespace. -/
def tcC5w : TestCase :=
  { method := "POST", url := "https://p.example/", bodyType := "raw",
    rawBody := " 1 " }

/-- C6 witness input: Scenario D of the spec. -/
def tcC6w : TestCase :=
  { url := "https://x.com/y?z=1", authType := "ApiKey",
    auth := { apiKey := "abc", apiKeyLocation := "query", apiKeyName := "token" } }

/-- C7 witness input: a case with a well-formed URL. -/
def tcC7w : TestCase := { id := "r1", caseName := "run", url := "https://r.example/" }

/-- The condition under which `buildHeaders` throws: the Basic-auth
branch is taken and `username:password` contains a character above
U+00FF, so `btoa` raises InvalidCharacterError. -/
def basicBtoaThrows (tc : TestCase) : Prop :=
  tc.authType = "Basic" ∧ tc.auth.username ≠ "" ∧ tc.auth.password ≠ "" ∧
    ((tc.auth.username ++ ":" ++ tc.auth.password).data.all
      (fun c => decide (c.toNat ≤ 255))) = false

/-- C7 counterexample input: a non-blank URL with Basic auth whose
username contains non-Latin-1 characters. -/
def tcC7cx : TestCase :=
  { caseName := "basic", url := "https://b.example/", authType := "Basic",
    auth := { username := "пароль", password := "x" } }

/-- C10 counterexample input: a failed outcome whose error message has
surrounding whitespace. -/
def oC10cx : Outcome :=
  { caseId := "1", caseName := "n", ok := false, status := none,
    statusText := none, timeMs := 0, expectedStatus := none, warning := "",
    executedAt := "t", error := "  raw-error  " }

/-- C10 witness input: a failed outcome with a plain error message. -/
def oC10w : Outcome :=
  { caseId := "2", caseName := "m", ok := false, status := some 500,
    statusText := some "Server Error", timeMs := 1500,
    expectedStatus := some 201, warning := "", executedAt := "t",
    error := "boom" }

theorem jsOr_empty_right (a : String) : jsOr a "" = a := by
  unfold jsOr; split <;> simp_all

theorem natDecGo_digits :
    ∀ (fuel n : Nat) (acc : List Char),
      (∀ c ∈ acc, 48 ≤ c.toNat ∧ c.toNat ≤ 57) →
      ∀ c ∈ natDecGo fuel n acc, 48 ≤ c.toNat ∧ c.toNat ≤ 57 := by
  intro fuel
  induction fuel with
  | zero => intro n acc hacc; simpa [natDecGo] using hacc
  | succ f ih =>
    intro n acc hacc
    have hd : 48 ≤ (decDigit (n % 10)).toNat ∧ (decDigit (n % 10)).toNat ≤ 57 := by
      have h10 : n % 10 < 10 := Nat.mod_lt _ (by decide)
      have hall : ∀ k, k < 10 → 48 ≤ (decDigit k).toNat ∧ (decDigit k).toNat ≤ 57 := by
        decide
      exact hall (n % 10) h10
    have hacc' : ∀ c ∈ decDigit (n % 10) :: acc, 48 ≤ c.toNat ∧ c.toNat ≤ 57 := by
      intro c hc
      rcases List.mem_cons.mp hc with h | h
      · exact h ▸ hd
      · exact hacc c h
    simp only [natDecGo]
    split
    · exact hacc'
    · exact ih _ _ hacc'

theorem allDigits_natDec (n : Nat) : allDigits (natDec n) = true := by
  have h := natDecGo_digits (n + 1) n [] (by simp)
  simp only [allDigits, List.all_eq_true]
  intro c hc
  have hc' := h c hc
  simp [hc'.1, hc'.2]

theorem pad2_spec : ∀ k < 100, (pad2 k).length = 2 ∧ allDigits (pad2 k) = true := by
  decide

theorem isPrefixOf_append_self (p r : List Char) : p.isPrefixOf (p ++ r) = true := by
  induction p with
  | nil => simp [List.isPrefixOf]
  | cons a t ih => simp [List.isPrefixOf, ih]

theorem infixAt_here (pat rest : List Char) : infixAt pat (pat ++ rest) = true := by
  cases pat with
  | nil =>
    cases rest with
    | nil => rfl
    | cons c cs => simp [infixAt, List.isPrefixOf]
  | cons a t =>
    simp only [List.cons_append, infixAt, Bool.or_eq_true]
    exact Or.inl (isPrefixOf_append_self (a :: t) rest)

theorem infixAt_cons (pat : List Char) (c : Char) (cs : List Char)
    (h : infixAt pat cs = true) : infixAt pat (c :: cs) = true := by
  simp only [infixAt, Bool.or_eq_true]
  exact Or.inr h

theorem infixAt_append_left (pat : List Char) :
    ∀ (s t : List Char), infixAt pat t = true → infixAt pat (s ++ t) = true := by
  intro s
  induction s with
  | nil => intro t h; simpa using h
  | cons a s ih => intro t h; exact infixAt_cons _ _ _ (ih t h)

theorem strContains_prefix (pat rest : String) :
    strContains (pat ++ rest) pat = true := by
  have : (pat ++ rest).data = pat.data ++ rest.data := rfl
  simp only [strContains, this]
  exact infixAt_here _ _

theorem strContains_append_right (s t pat : String)
    (h : strContains t pat = true) : strContains (s ++ t) pat = true := by
  have : (s ++ t).data = s.data ++ t.data := rfl
  simp only [strContains, this]
  exact infixAt_append_left _ _ _ h

/-- C4: for every Test Case whose (normalised, defaulted) method is GET,
the built request body is empty — no data, not form-encoded, no warning —
regardless of bodyType, rawBody or formData content. -/
theorem buildBody_get_no_body (env : Env) (tc : TestCase)
    (h : jsToUpper (jsOr tc.method "GET") = "GET") :
    buildBody env tc = ⟨none, false, ""⟩ := by
  simp [buildBody, h]

/-- C4 witness: the lower-case GET case `tcC4w`, which carries raw body
text, still gets an empty body. -/
theorem buildBody_get_no_body_witness :
    jsToUpper (jsOr tcC4w.method "GET") = "GET" ∧
      buildBody demoEnv tcC4w = ⟨none, false, ""⟩ :=
  ⟨by decide, buildBody_get_no_body demoEnv tcC4w (by decide)⟩

/-- C5: for a non-GET Test Case with bodyType raw: blank text gives no
body and no warning; text whose trimmed form parses as JSON gives the
parsed value and no warning; text that fails to parse gives the literal
raw text as body together with the warning. -/
theorem buildBody_raw_json_semantics (env : Env) (tc : TestCase)
    (hm : jsToUpper (jsOr tc.method "GET") ≠ "GET") (hb : tc.bodyType = "raw") :
    (jsTrim tc.rawBody = "" → buildBody env tc = ⟨none, false, ""⟩) ∧
    (∀ v, env.jsonParse (jsTrim tc.rawBody) = some v → jsTrim tc.rawBody ≠ "" →
      buildBody env tc = ⟨some (.json v), false, ""⟩) ∧
    (env.jsonParse (jsTrim tc.rawBody) = none → jsTrim tc.rawBody ≠ "" →
      buildBody env tc =
        ⟨some (.text tc.rawBody), false,
          "Raw body is not valid JSON; sending as text."⟩) := by
  refine ⟨?_, ?_, ?_⟩
  · intro h
    simp [buildBody, ensureTrimmed, hm, hb, h]
  · intro v hv h
    simp [buildBody, ensureTrimmed, hm, hb, h, hv]
  · intro hv h
    simp [buildBody, ensureTrimmed, hm, hb, h, hv]

/-- C5 witness: the POST case `tcC5w` whose raw body trims to the JSON
text `1`, against the JSON oracle that parses exactly that text. -/
theorem buildBody_raw_json_semantics_witness :
    jsToUpper (jsOr tcC5w.method "GET") ≠ "GET" ∧ tcC5w.bodyType = "raw" ∧
      buildBody demoEnvParse1 tcC5w = ⟨some (.json (.num 1)), false, ""⟩ :=
  ⟨by decide, rfl,
    (buildBody_raw_json_semantics demoEnvParse1 tcC5w (by decide) rfl).2.1
      (.num 1) rfl (by decide)⟩

/-- C6: with authType ApiKey, a non-empty apiKey and query location, the
final URL is the trimmed URL plus `encoded(name)=encoded(value)`, joined
with `?` when the URL contains no `?` yet and `&` otherwise, the name
defaulting to apiKey when unset or blank; every other configuration
leaves the URL unchanged apart from trimming. -/
theorem finalUrl_apiKey_query (tc : TestCase) :
    (tc.authType = "ApiKey" ∧ tc.auth.apiKey ≠ "" ∧
        tc.auth.apiKeyLocation = "query" →
      finalUrlOf tc =
        jsTrim tc.url ++ (if (jsTrim tc.url).data.contains '?' then "&" else "?") ++
          (encodeURIComponent (jsOr (jsTrim tc.auth.apiKeyName) "apiKey") ++ "=" ++
            encodeURIComponent tc.auth.apiKey)) ∧
    (¬(tc.authType = "ApiKey" ∧ tc.auth.apiKey ≠ "" ∧
        tc.auth.apiKeyLocation = "query") →
      finalUrlOf tc = jsTrim tc.url) := by
  have hu : ensureTrimmed (jsOr tc.url "") = jsTrim tc.url := by
    rw [jsOr_empty_right]; rfl
  constructor
  · intro h
    simp only [finalUrlOf, hu, if_pos h]
  · intro h
    simp only [finalUrlOf, hu, if_neg h]

/-- C6 witness: Scenario D of the spec, on `tcC6w`. -/
theorem finalUrl_apiKey_query_witness :
    (tcC6w.authType = "ApiKey" ∧ tcC6w.auth.apiKey ≠ "" ∧
        tcC6w.auth.apiKeyLocation = "query") ∧
      finalUrlOf tcC6w = "https://x.com/y?z=1&token=abc" := by
  refine ⟨by decide, ?_⟩
  have h := (finalUrl_apiKey_query tcC6w).1 (by decide)
  rw [h]; rfl

theorem btoa_eq_error (s : String)
    (h : (s.data.all fun c => decide (c.toNat ≤ 255)) = false) :
    btoa s = .error "InvalidCharacterError" := by
  unfold btoa
  rw [h]
  simp

theorem btoa_eq_ok (s : String)
    (h : (s.data.all fun c => decide (c.toNat ≤ 255)) = true) :
    btoa s = .ok ⟨base64Go (s.data.map fun c => c.toNat)⟩ := by
  unfold btoa
  rw [h]
  simp

theorem buildHeaders_error_of_throws (tc : TestCase) (fd : Bool)
    (h : basicBtoaThrows tc) :
    buildHeaders tc fd = .error "InvalidCharacterError" := by
  simp only [buildHeaders]
  rw [if_pos ⟨h.1, h.2.1, h.2.2.1⟩, btoa_eq_error _ h.2.2.2]

theorem buildHeaders_ok_of_not_throws (tc : TestCase) (fd : Bool)
    (h : ¬ basicBtoaThrows tc) : ∃ hs, buildHeaders tc fd = .ok hs := by
  simp only [buildHeaders]
  by_cases hb : tc.authType = "Basic" ∧ tc.auth.username ≠ "" ∧
      tc.auth.password ≠ ""
  · have hl : ((tc.auth.username ++ ":" ++ tc.auth.password).data.all
        (fun c => decide (c.toNat ≤ 255))) = true := by
      by_contra hc
      exact h ⟨hb.1, hb.2.1, hb.2.2, eq_false_of_ne_true hc⟩
    rw [if_pos hb, btoa_eq_ok _ hl]
    exact ⟨_, rfl⟩
  · rw [if_neg hb]
    exact ⟨_, rfl⟩

/-- C7 counterexample: a Test Case with a non-blank URL, Basic auth and
a non-Latin-1 username makes runTestCase throw btoa's
InvalidCharacterError from buildHeaders (which runs outside the try
block), with zero transport attempts — refuting the claim that a
non-empty URL always yields exactly one Outcome and never an exception. -/
theorem runTestCase_btoa_throw_cx :
    jsTrim tcC7cx.url ≠ "" ∧
      (runTestCase demoEnv (.success 200 "OK") 3 "t" tcC7cx).outcome =
        Except.error "InvalidCharacterError" ∧
      (runTestCase demoEnv (.success 200 "OK") 3 "t" tcC7cx).transportCalls =
        0 :=
  ⟨by decide, rfl, rfl⟩

/-- C7 (amended): runTestCase fails before any transport attempt exactly
when the trimmed URL is empty (the descriptive missing-URL error) or when
header building throws — the Basic-auth btoa call on credentials
containing a character above U+00FF; in every other case exactly one
transport attempt is made and exactly one Outcome is returned, on both
the success and the transport-failure path. -/
theorem runTestCase_throw_characterisation (env : Env) (tr : TransportResult)
    (elapsedMs : Nat) (now : String) (tc : TestCase) :
    ((runTestCase env tr elapsedMs now tc).outcome =
        Except.error "Missing URL for test case." ↔ jsTrim tc.url = "") ∧
    (isOkOutcome (runTestCase env tr elapsedMs now tc).outcome = false ↔
      jsTrim tc.url = "" ∨ basicBtoaThrows tc) ∧
    (isOkOutcome (runTestCase env tr elapsedMs now tc).outcome = false →
      (runTestCase env tr elapsedMs now tc).transportCalls = 0) ∧
    (isOkOutcome (runTestCase env tr elapsedMs now tc).outcome = true →
      (runTestCase env tr elapsedMs now tc).transportCalls = 1) := by
  have hu : ensureTrimmed (jsOr tc.url "") = jsTrim tc.url := by
    rw [jsOr_empty_right]; rfl
  by_cases hurl : jsTrim tc.url = ""
  · simp [runTestCase, hu, hurl, isOkOutcome]
  · by_cases hth : basicBtoaThrows tc
    · have hh := buildHeaders_error_of_throws tc (buildBody env tc).isFormData hth
      simp [runTestCase, hu, hurl, hh, hth, isOkOutcome]
    · obtain ⟨hs, hh⟩ :=
        buildHeaders_ok_of_not_throws tc (buildBody env tc).isFormData hth
      cases tr <;> simp [runTestCase, hu, hurl, hh, hth, isOkOutcome]

/-- C7 witness: the well-formed case `tcC7w` (no Basic auth) yields an
Outcome with exactly one transport call. -/
theorem runTestCase_throw_characterisation_witness :
    isOkOutcome
        (runTestCase demoEnv (.success 204 "No Content") 3 "t" tcC7w).outcome =
      true ∧
    (runTestCase demoEnv (.success 204 "No Content") 3 "t"
        tcC7w).transportCalls = 1 :=
  ⟨rfl,
    (runTestCase_throw_characterisation demoEnv (.success 204 "No Content") 3
        "t" tcC7w).2.2.2 rfl⟩

/-- C1 counterexample: on the transport-failure path with a partial 200
response and no expected status, the returned Outcome has ok = false even
though the claimed criterion (expected unset and status in the 2xx range)
holds of its fields, so the biconditional of C1 fails there. -/
theorem runTestCase_failure_biconditional_cx :
    (runTestCase demoEnv (.failure "network error" (some 200) (some "OK")) 7
        "2024-01-01T00:00:00.000Z" tcC1cx).outcome = Except.ok oC1cx ∧
      oC1cx.ok = false ∧ okCriterion oC1cx = true :=
  ⟨rfl, rfl, rfl⟩

/-- C1 (amended): for every Outcome runTestCase returns, ok is true iff
the expected-status criterion holds on the success path; on the
transport-failure path ok is always false, even when a status taken from
a partial response would satisfy the criterion. -/
theorem runTestCase_ok_verdict (env : Env) (tr : TransportResult)
    (elapsedMs : Nat) (now : String) (tc : TestCase) (o : Outcome)
    (h : (runTestCase env tr elapsedMs now tc).outcome = Except.ok o) :
    (∀ st stx, tr = .success st stx → (o.ok = true ↔ okCriterion o = true)) ∧
    (∀ msg ps pst, tr = .failure msg ps pst → o.ok = false) := by
  by_cases hu : ensureTrimmed (jsOr tc.url "") = ""
  · exfalso
    simp [runTestCase, hu] at h
  · rcases hh : buildHeaders tc (buildBody env tc).isFormData with e | headers
    · exfalso
      simp [runTestCase, hu, hh] at h
    · cases tr with
      | success st stx =>
        simp only [runTestCase, if_neg hu, hh] at h
        refine ⟨fun st' stx' htr => ?_, fun msg ps pst htr => by cases htr⟩
        cases hE : asNumber tc.expectedStatus with
        | some e =>
          simp only [hE] at h
          rw [Except.ok.injEq] at h
          subst h
          simp [okCriterion]
        | none =>
          simp only [hE] at h
          rw [Except.ok.injEq] at h
          subst h
          simp [okCriterion]
      | failure msg ps pst =>
        simp only [runTestCase, if_neg hu, hh] at h
        rw [Except.ok.injEq] at h
        subst h
        constructor
        · intro st' stx' htr
          cases htr
        · intro msg' ps' pst' htr
          rfl

/-- C1 witness: on a 200 response for a case expecting 200, the returned
Outcome satisfies the biconditional. -/
theorem runTestCase_ok_verdict_witness :
    oC1w.ok = true ↔ okCriterion oC1w = true :=
  (runTestCase_ok_verdict demoEnv (.success 200 "OK") 5 "t" tcC1w oC1w rfl).1
    200 "OK" rfl

set_option maxRecDepth 8000
set_option maxHeartbeats 2000000

/-- C2: the transport error message is interpolated into the JUnit
failure body without XML escaping: for the failed outcome `oC2bug`, whose
error text is `<b>&`, the reserved characters appear verbatim inside the
generated failure element and no escaped form is produced anywhere in the
report. -/
theorem junit_error_body_unescaped :
    strContains (generateJUnitReport [] [oC2bug])
        "\"Expected 2xx, got error\"><b>&</failure>" = true ∧
      strContains (generateJUnitReport [] [oC2bug]) "&lt;" = false :=
  ⟨rfl, rfl⟩

/-- C3: for every pair of inputs, the generated testsuite element's tests
attribute is the number of test cases and its failures attribute is the
number of outcomes with ok = false, independent of the length of the
outcome list. -/
theorem junit_counts (testCases : List TestCase) (results : List Outcome) :
    ∃ entries,
      generateJUnitReport testCases results =
        "<?xml version=\"1.0\" encoding=\"UTF-8\"?>\n<testsuite name=\"API Tests\" tests=\"" ++
          natDec testCases.length ++ "\" failures=\"" ++
          natDec (results.filter (fun r => !r.ok)).length ++ "\">\n" ++
          entries ++ "\n</testsuite>" :=
  ⟨joinSep "\n" (results.map (junitEntry testCases)), rfl⟩

theorem isPrefixOf_extend (p : List Char) :
    ∀ (l t : List Char), p.isPrefixOf l = true → p.isPrefixOf (l ++ t) = true := by
  induction p with
  | nil => intro l t h; simp [List.isPrefixOf]
  | cons a p ih =>
    intro l t h
    cases l with
    | nil => simp [List.isPrefixOf] at h
    | cons b l' =>
      simp only [List.isPrefixOf, Bool.and_eq_true, List.cons_append] at h ⊢
      exact ⟨h.1, ih l' t h.2⟩

theorem infixAt_nil_pat (l : List Char) : infixAt [] l = true := by
  cases l <;> simp [infixAt, List.isPrefixOf]

theorem infixAt_extendR (pat : List Char) :
    ∀ (s t : List Char), infixAt pat s = true → infixAt pat (s ++ t) = true := by
  intro s
  induction s with
  | nil =>
    intro t h
    have hp : pat = [] := by
      cases pat with
      | nil => rfl
      | cons a p => simp [infixAt, List.isEmpty] at h
    subst hp
    exact infixAt_nil_pat t
  | cons c cs ih =>
    intro t h
    simp only [infixAt, Bool.or_eq_true] at h
    simp only [List.cons_append, infixAt, Bool.or_eq_true]
    rcases h with h | h
    · left
      simpa using isPrefixOf_extend pat (c :: cs) t h
    · right
      exact ih t h

theorem strContains_extendR (s t pat : String)
    (h : strContains s pat = true) : strContains (s ++ t) pat = true := by
  have hd : (s ++ t).data = s.data ++ t.data := rfl
  simp only [strContains, hd]
  exact infixAt_extendR _ _ _ h

theorem strContains_suffix (pre pat : String) :
    strContains (pre ++ pat) pat = true := by
  have hself : infixAt pat.data pat.data = true := by
    simpa using infixAt_here pat.data []
  have hd : (pre ++ pat).data = pre.data ++ pat.data := rfl
  simp only [strContains, hd]
  exact infixAt_append_left _ _ _ hself

theorem strAppend_assoc (a b c : String) : a ++ b ++ c = a ++ (b ++ c) := by
  show String.mk ((a.data ++ b.data) ++ c.data) =
    String.mk (a.data ++ (b.data ++ c.data))
  rw [List.append_assoc]

theorem litAppend_ne_empty (c : Char) (l : List Char) (x : String) :
    String.mk (c :: l) ++ x ≠ "" := by
  intro h
  have hd := congrArg String.data h
  simp at hd

/-- C8: for every finite non-negative millisecond count, `formatDuration`
renders `N ms` below 1000 ms, seconds with exactly two decimal digits
from 1 s up to (excluding) 10 s, and whole seconds with no decimal point
at 10 s and above; and every HTML-preview case card embeds exactly this
rendering of its outcome's duration. -/
theorem formatDuration_spec (ms : Nat) :
    (ms < 1000 → formatDuration (some ms) = natDec ms ++ " ms") ∧
    (1000 ≤ ms → ms < 10000 →
      ∃ ip fp, formatDuration (some ms) = ip ++ ("." ++ (fp ++ " s")) ∧
        fp.length = 2 ∧ allDigits fp = true ∧ allDigits ip = true) ∧
    (10000 ≤ ms →
      ∃ ip, formatDuration (some ms) = ip ++ " s" ∧ allDigits ip = true) ∧
    (∀ env tcs idx r,
      strContains (caseCard env tcs idx r)
        (escapeHtml (formatDuration (some r.timeMs))) = true) := by
  refine ⟨?_, ?_, ?_, ?_⟩
  · intro h
    simp [formatDuration, Nat.not_le.mpr h]
  · intro h1 h2
    refine ⟨natDec ((ms + 5) / 10 / 100), pad2 ((ms + 5) / 10 % 100), ?_, ?_, ?_,
      allDigits_natDec _⟩
    · simp [formatDuration, h1, Nat.not_le.mpr h2, toFixed2ms, strAppend_assoc]
    · exact (pad2_spec _ (Nat.mod_lt _ (by decide))).1
    · exact (pad2_spec _ (Nat.mod_lt _ (by decide))).2
  · intro h
    have h1 : 1000 ≤ ms := Nat.le_trans (show (1000 : Nat) ≤ 10000 by decide) h
    refine ⟨natDec ((ms + 500) / 1000), ?_, allDigits_natDec _⟩
    simp [formatDuration, h1, h, toFixed0ms]
  · intro env tcs idx r
    simp only [caseCard]
    apply strContains_extendR
    apply strContains_extendR
    apply strContains_extendR
    apply strContains_extendR
    apply strContains_extendR
    apply strContains_extendR
    apply strContains_extendR
    apply strContains_extendR
    apply strContains_extendR
    exact strContains_suffix _ _

/-- C8 witness: 500 ms renders as `500 ms`. -/
theorem formatDuration_spec_witness :
    500 < 1000 ∧ formatDuration (some 500) = natDec 500 ++ " ms" :=
  ⟨by decide, (formatDuration_spec 500).1 (by decide)⟩

/-- C9: when `meta.executedAt` is supplied, `generateAllureHtml` does not
read the wall clock, so two calls with the same `(testCases, outcomes,
meta)` produce byte-identical HTML. -/
theorem generateAllureHtml_deterministic (env : Env) (now1 now2 : String)
    (testCases : List TestCase) (results : List Outcome) (meta : AllureMeta)
    (h : meta.executedAt ≠ "") :
    generateAllureHtml env now1 testCases results meta =
      generateAllureHtml env now2 testCases results meta := by
  simp [generateAllureHtml, jsOr, h]

/-- C9 witness: two generations at different wall-clock instants, same
supplied `executedAt`. -/
theorem generateAllureHtml_deterministic_witness :
    generateAllureHtml demoEnv "2025-01-01T00:00:00.000Z" [] []
        ⟨"2024-05-05T00:00:00.000Z"⟩ =
      generateAllureHtml demoEnv "2025-02-02T00:00:00.000Z" [] []
        ⟨"2024-05-05T00:00:00.000Z"⟩ :=
  generateAllureHtml_deterministic demoEnv "2025-01-01T00:00:00.000Z"
    "2025-02-02T00:00:00.000Z" [] [] ⟨"2024-05-05T00:00:00.000Z"⟩ (by decide)

/-- C10 counterexample: the error message of `oC10cx` reaches the JUnit
report verbatim, surrounding whitespace included, because the failure
body is interpolated without the trimming escaper. -/
theorem junit_error_untrimmed_cx :
    strContains (generateJUnitReport [] [oC10cx]) ">  raw-error  </failure>" =
      true :=
  rfl

/-- C10 (amended): both escaping helpers trim surrounding whitespace from
every string before escaping, so every string routed through them appears
trimmed in the reports; the JUnit failure body, however, interpolates the
outcome's error message directly, bypassing `escapeXml` and its trimming. -/
theorem escape_trims_but_junit_error_bypasses (s : String) (tcs : List TestCase)
    (r : Outcome) (hok : r.ok = false) :
    escapeHtml s = htmlEscapeChars (jsTrim s) ∧
    escapeXml s = xmlEscapeChars (jsTrim s) ∧
    junitEntry tcs r =
      junitEntryFailurePrefix tcs r ++
        (jsOr r.error "Request failed" ++ "</failure>\n    </testcase>") := by
  refine ⟨rfl, rfl, ?_⟩
  simp only [junitEntry, junitEntryFailurePrefix, hok, Bool.false_eq_true,
    if_false]
  split
  · simp only [strAppend_assoc]
    rfl
  · rename_i hcon
    exact absurd (Classical.not_not.mp hcon) (litAppend_ne_empty _ _ _)

/-- C10 witness: the failing outcome `oC10w` with error `boom` has its
entry decompose around the verbatim error message. -/
theorem escape_trims_but_junit_error_bypasses_witness :
    oC10w.ok = false ∧
      junitEntry [] oC10w =
        junitEntryFailurePrefix [] oC10w ++
          (jsOr oC10w.error "Request failed" ++ "</failure>\n    </testcase>") :=
  ⟨rfl, (escape_trims_but_junit_error_bypasses " x " [] oC10w rfl).2.2⟩
